import Mathlib

/-!
Verification of the sound-manager routing utilities (`soundmanagerutil.cpp`):
`ChannelGroup`, the `AudioPathType` taxonomy and the `AudioOutput` /
`AudioInput` route construction and XML (de)serialization.

Machine integers are embedded as `Fin 256` (the C++ `unsigned char` fields)
and `Nat` / `Int` (the C++ `unsigned int` / `int` temporaries; the C++
arithmetic on promoted `unsigned char` values never overflows `int`, so plain
`Nat` addition is exact).
-/

/-- Modelled from the spec: the enum `AudioPathType` is declared in
`soundmanagerutil.h`, which is not part of the sources at hand.  §4.2 calls
`INVALID` the "upper-bound sentinel" of the enumeration range, and
`AudioPath::getTypeFromInt` in the `.cpp` guards with
`typeInt >= AudioPath::INVALID`, so `INVALID` is the last variant; the
remaining variants keep the spec's relative order.  (§3's sentence putting
`INVALID` first contradicts §4.2 and the source's range check; see the C6
theorems.) -/
inductive AudioPathType where
  | MASTER
  | HEADPHONES
  | BUS
  | DECK
  | VINYLCONTROL
  | MICROPHONE
  | AUXILLIARY
  | INVALID
deriving DecidableEq, Repr, Fintype

/-- The integer value of each enum variant (`MASTER = 0`, …, `INVALID = 7`). -/
def AudioPathType.val : AudioPathType → Nat
  | MASTER => 0
  | HEADPHONES => 1
  | BUS => 2
  | DECK => 3
  | VINYLCONTROL => 4
  | MICROPHONE => 5
  | AUXILLIARY => 6
  | INVALID => 7

/-- `static_cast<AudioPathType>` for in-range integers (0–7).  The source only
applies the cast after the range check in `getTypeFromInt`, so the default
branch is unreachable there. -/
def AudioPathType.ofTypeInt (typeInt : Int) : AudioPathType :=
  match typeInt with
  | 0 => MASTER
  | 1 => HEADPHONES
  | 2 => BUS
  | 3 => DECK
  | 4 => VINYLCONTROL
  | 5 => MICROPHONE
  | 6 => AUXILLIARY
  | _ => INVALID

/-- Modelled from the spec: §3's stated variant ordering
"`INVALID=0, MASTER, HEADPHONES, BUS, DECK, VINYLCONTROL, MICROPHONE,
AUXILIARY`" with `INVALID` as the zero value, used to test claim C6 against
the ordering the source forces. -/
def AudioPathType.ordinalSpec : AudioPathType → Int
  | INVALID => 0
  | MASTER => 1
  | HEADPHONES => 2
  | BUS => 3
  | DECK => 4
  | VINYLCONTROL => 5
  | MICROPHONE => 6
  | AUXILLIARY => 7

/-- Conversion of a C++ `unsigned int` (here `Nat`) to `unsigned char`:
truncation modulo 256. -/
def toUChar (x : Nat) : Fin 256 :=
  ⟨x % 256, Nat.mod_lt x (by decide)⟩

/-- `QString::toLower` for the ASCII strings this module uses:
character-wise lowercasing. -/
def qtToLower (s : String) : String :=
  ⟨s.data.map Char.toLower⟩

/-- `ChannelGroup`: a contiguous range of hardware channels.  Both members
are C++ `unsigned char`. -/
structure ChannelGroup where
  m_channelBase : Fin 256
  m_channels : Fin 256
deriving DecidableEq, Repr

/-- `ChannelGroup::getChannelBase`. -/
def ChannelGroup.getChannelBase (g : ChannelGroup) : Fin 256 :=
  g.m_channelBase

/-- `ChannelGroup::getChannelCount`. -/
def ChannelGroup.getChannelCount (g : ChannelGroup) : Fin 256 :=
  g.m_channels

/-- `ChannelGroup::operator==`: common base channel and channel count. -/
def ChannelGroup.opEq (g other : ChannelGroup) : Bool :=
  decide (g.m_channelBase = other.m_channelBase) &&
    decide (g.m_channels = other.m_channels)

/-- `ChannelGroup::clashesWith`.  The C++ comparisons act on the members
promoted to `int`, which `Nat` arithmetic on `Fin.val` models exactly. -/
def ChannelGroup.clashesWith (g other : ChannelGroup) : Bool :=
  if g.m_channels.val = 0 ∨ other.m_channels.val = 0 then
    false
  else
    (decide (g.m_channelBase.val > other.m_channelBase.val) &&
      decide (g.m_channelBase.val < other.m_channelBase.val + other.m_channels.val)) ||
    (decide (other.m_channelBase.val > g.m_channelBase.val) &&
      decide (other.m_channelBase.val < g.m_channelBase.val + g.m_channels.val)) ||
    decide (g.m_channelBase.val = other.m_channelBase.val)

/-- `ChannelGroup::getHash`: `0 | (m_channels << 8) | m_channelBase`. -/
def ChannelGroup.getHash (g : ChannelGroup) : Nat :=
  0 ||| (g.m_channels.val <<< 8) ||| g.m_channelBase.val

/-- `AudioPath`: the data shared by `AudioOutput` and `AudioInput`
(`m_type`, `m_index`, `m_channelGroup`). -/
structure AudioPath where
  m_type : AudioPathType
  m_index : Fin 256
  m_channelGroup : ChannelGroup
deriving DecidableEq, Repr

/-- `AudioPath::getType`. -/
def AudioPath.getType (path : AudioPath) : AudioPathType :=
  path.m_type

/-- `AudioPath::getChannelGroup`. -/
def AudioPath.getChannelGroup (path : AudioPath) : ChannelGroup :=
  path.m_channelGroup

/-- `AudioPath::getIndex`. -/
def AudioPath.getIndex (path : AudioPath) : Fin 256 :=
  path.m_index

/-- `AudioPath::operator==`: common type and index. -/
def AudioPath.opEq (path other : AudioPath) : Bool :=
  decide (path.m_type = other.m_type) && decide (path.m_index = other.m_index)

/-- `AudioPath::getHash`: `0 | (m_type << 8) | m_index`. -/
def AudioPath.getHash (path : AudioPath) : Nat :=
  0 ||| (path.m_type.val <<< 8) ||| path.m_index.val

/-- `AudioPath::channelsClash`. -/
def AudioPath.channelsClash (path other : AudioPath) : Bool :=
  path.m_channelGroup.clashesWith other.m_channelGroup

/-- `AudioPath::getStringFromType`: canonical display string per variant. -/
def AudioPath.getStringFromType (type : AudioPathType) : String :=
  match type with
  | AudioPathType.INVALID => "Invalid"
  | AudioPathType.MASTER => "Master"
  | AudioPathType.HEADPHONES => "Headphones"
  | AudioPathType.BUS => "Bus"
  | AudioPathType.DECK => "Deck"
  | AudioPathType.VINYLCONTROL => "Vinyl Control"
  | AudioPathType.MICROPHONE => "Microphone"
  | AudioPathType.AUXILLIARY => "Auxilliary"

/-- `AudioPath::getTypeFromString`: lowercase the argument and compare with
each non-`INVALID` variant's lowercased canonical string. -/
def AudioPath.getTypeFromString (string : String) : AudioPathType :=
  let string := qtToLower string
  if string = qtToLower (getStringFromType AudioPathType.MASTER) then
    AudioPathType.MASTER
  else if string = qtToLower (getStringFromType AudioPathType.HEADPHONES) then
    AudioPathType.HEADPHONES
  else if string = qtToLower (getStringFromType AudioPathType.BUS) then
    AudioPathType.BUS
  else if string = qtToLower (getStringFromType AudioPathType.DECK) then
    AudioPathType.DECK
  else if string = qtToLower (getStringFromType AudioPathType.VINYLCONTROL) then
    AudioPathType.VINYLCONTROL
  else if string = qtToLower (getStringFromType AudioPathType.MICROPHONE) then
    AudioPathType.MICROPHONE
  else if string = qtToLower (getStringFromType AudioPathType.AUXILLIARY) then
    AudioPathType.AUXILLIARY
  else
    AudioPathType.INVALID

/-- `AudioPath::isIndexed`: `BUS`, `DECK`, `VINYLCONTROL`, `AUXILLIARY`. -/
def AudioPath.isIndexed (type : AudioPathType) : Bool :=
  match type with
  | AudioPathType.BUS => true
  | AudioPathType.DECK => true
  | AudioPathType.VINYLCONTROL => true
  | AudioPathType.AUXILLIARY => true
  | _ => false

/-- `AudioPath::getTypeFromInt`: `INVALID` outside `[0, INVALID)`, otherwise
the `static_cast`. -/
def AudioPath.getTypeFromInt (typeInt : Int) : AudioPathType :=
  if typeInt < 0 ∨ typeInt ≥ (AudioPathType.INVALID.val : Int) then
    AudioPathType.INVALID
  else
    AudioPathType.ofTypeInt typeInt

/-- `AudioPath::minChannelsForType`: 2 for `VINYLCONTROL`, else 1. -/
def AudioPath.minChannelsForType (type : AudioPathType) : Fin 256 :=
  match type with
  | AudioPathType.VINYLCONTROL => 2
  | _ => 1

/-- `AudioPath::maxChannelsForType`: uniformly 2. -/
def AudioPath.maxChannelsForType (_type : AudioPathType) : Fin 256 :=
  2

/-- `AudioOutput::getSupportedTypes`. -/
def AudioOutput.getSupportedTypes : List AudioPathType :=
  [AudioPathType.MASTER, AudioPathType.HEADPHONES,
    AudioPathType.BUS, AudioPathType.DECK]

/-- `AudioOutput::setType`: keep a supported type, coerce others to
`INVALID`. -/
def AudioOutput.setType (type : AudioPathType) : AudioPathType :=
  if type ∈ AudioOutput.getSupportedTypes then type else AudioPathType.INVALID

/-- The `AudioOutput` constructor: `setType(type)` fixes the route type, and
the index is kept exactly when `isIndexed(type)` holds of the raw `type`
argument (the source tests the argument, not the coerced member). -/
def AudioOutput.make (type : AudioPathType)
    (channelBase channels index : Fin 256) : AudioPath :=
  { m_type := AudioOutput.setType type
    m_index := if AudioPath.isIndexed type then index else 0
    m_channelGroup := { m_channelBase := channelBase, m_channels := channels } }

/-- `AudioInput::getSupportedTypes`, parameterized by whether vinyl-control
support is compiled in (`__VINYLCONTROL__`). -/
def AudioInput.getSupportedTypes (vinylcontrol : Bool) : List AudioPathType :=
  (if vinylcontrol then [AudioPathType.VINYLCONTROL] else []) ++
    [AudioPathType.AUXILLIARY, AudioPathType.MICROPHONE]

/-- `AudioInput::setType`. -/
def AudioInput.setType (vinylcontrol : Bool) (type : AudioPathType) :
    AudioPathType :=
  if type ∈ AudioInput.getSupportedTypes vinylcontrol then type
  else AudioPathType.INVALID

/-- The `AudioInput` constructor (same shape as `AudioOutput`'s). -/
def AudioInput.make (vinylcontrol : Bool) (type : AudioPathType)
    (channelBase channels index : Fin 256) : AudioPath :=
  { m_type := AudioInput.setType vinylcontrol type
    m_index := if AudioPath.isIndexed type then index else 0
    m_channelGroup := { m_channelBase := channelBase, m_channels := channels } }

/-- Shallow model of the one `QDomElement` shape this module reads and
writes: the tag name plus the four attributes `type`, `index`, `channel`,
`channel_count` (the numeric attributes as the `unsigned int` values
`setAttribute` stores and `toUInt` reads back). -/
structure QDomElement where
  tagName : String
  typeAttr : String
  indexAttr : Nat
  channelAttr : Nat
  channelCountAttr : Nat
deriving DecidableEq, Repr

/-- `AudioOutput::toXML`. -/
def AudioOutput.toXML (path : AudioPath) : QDomElement :=
  { tagName := "output"
    typeAttr := AudioPath.getStringFromType path.m_type
    indexAttr := path.m_index.val
    channelAttr := path.m_channelGroup.getChannelBase.val
    channelCountAttr := path.m_channelGroup.getChannelCount.val }

/-- `AudioOutput::fromXML`, including the legacy `channel_count == 0`
migration (1 channel for `MICROPHONE`, 2 otherwise). -/
def AudioOutput.fromXML (xml : QDomElement) : AudioPath :=
  let type := AudioPath.getTypeFromString xml.typeAttr
  let index := xml.indexAttr
  let channel := xml.channelAttr
  let channels := xml.channelCountAttr
  let channels :=
    if channels = 0 then
      if type = AudioPathType.MICROPHONE then 1 else 2
    else channels
  AudioOutput.make type (toUChar channel) (toUChar channels) (toUChar index)

/-- `AudioInput::toXML`. -/
def AudioInput.toXML (path : AudioPath) : QDomElement :=
  { tagName := "input"
    typeAttr := AudioPath.getStringFromType path.m_type
    indexAttr := path.m_index.val
    channelAttr := path.m_channelGroup.getChannelBase.val
    channelCountAttr := path.m_channelGroup.getChannelCount.val }

/-- `AudioInput::fromXML`, including the legacy migration. -/
def AudioInput.fromXML (vinylcontrol : Bool) (xml : QDomElement) : AudioPath :=
  let type := AudioPath.getTypeFromString xml.typeAttr
  let index := xml.indexAttr
  let channel := xml.channelAttr
  let channels := xml.channelCountAttr
  let channels :=
    if channels = 0 then
      if type = AudioPathType.MICROPHONE then 1 else 2
    else channels
  AudioInput.make vinylcontrol type (toUChar channel) (toUChar channels)
    (toUChar index)

/-- `getHash` packs the two 8-bit members arithmetically: since the base
channel is below 256, the bitwise or is plain addition. -/
theorem ChannelGroup.getHash_eq (g : ChannelGroup) :
    g.getHash = g.m_channels.val * 256 + g.m_channelBase.val := by
  have hb : g.m_channelBase.val < 2 ^ 8 := g.m_channelBase.isLt
  show 0 ||| (g.m_channels.val <<< 8) ||| g.m_channelBase.val = _
  rw [Nat.zero_or, Nat.shiftLeft_eq, Nat.mul_comm,
    ← Nat.mul_add_lt_is_or hb, Nat.mul_comm]

/-- Arithmetic characterization of `ChannelGroup::clashesWith`. -/
theorem ChannelGroup.clashesWith_eq_true_iff (g other : ChannelGroup) :
    g.clashesWith other = true ↔
      g.m_channels.val ≠ 0 ∧ other.m_channels.val ≠ 0 ∧
        ((g.m_channelBase.val > other.m_channelBase.val ∧
            g.m_channelBase.val <
              other.m_channelBase.val + other.m_channels.val) ∨
          (other.m_channelBase.val > g.m_channelBase.val ∧
            other.m_channelBase.val <
              g.m_channelBase.val + g.m_channels.val) ∨
          g.m_channelBase.val = other.m_channelBase.val) := by
  unfold ChannelGroup.clashesWith
  split
  · rename_i h
    simp only [Bool.false_eq_true, false_iff]
    intro hc
    exact absurd h (by tauto)
  · rename_i h
    simp only [Bool.or_eq_true, Bool.and_eq_true, decide_eq_true_iff]
    omega

/-- Claim C1: `clashesWith` returns false when either group's count is 0;
with both counts nonzero it returns true exactly when the half-open ranges
`[base, base+count)` share a channel index; two nonempty groups with the
same base always clash; and the spec's abutting/overlapping examples
evaluate as stated. -/
theorem channelGroup_clashesWith_spec :
    (∀ g other : ChannelGroup,
      ((g.m_channels.val = 0 ∨ other.m_channels.val = 0) →
        g.clashesWith other = false) ∧
      (g.m_channels.val ≠ 0 → other.m_channels.val ≠ 0 →
        (g.clashesWith other = true ↔
          ∃ i : Nat,
            (g.m_channelBase.val ≤ i ∧
              i < g.m_channelBase.val + g.m_channels.val) ∧
            (other.m_channelBase.val ≤ i ∧
              i < other.m_channelBase.val + other.m_channels.val))) ∧
      (g.m_channels.val ≠ 0 → other.m_channels.val ≠ 0 →
        g.m_channelBase = other.m_channelBase →
        g.clashesWith other = true)) ∧
    (ChannelGroup.mk 0 2).clashesWith (ChannelGroup.mk 2 2) = false ∧
    (ChannelGroup.mk 0 2).clashesWith (ChannelGroup.mk 1 2) = true := by
  refine ⟨fun g other => ⟨?_, ?_, ?_⟩, by decide, by decide⟩
  · intro h
    rcases hb : g.clashesWith other with _ | _
    · rfl
    · rw [ChannelGroup.clashesWith_eq_true_iff] at hb
      exact absurd h (by omega)
  · intro h1 h2
    rw [ChannelGroup.clashesWith_eq_true_iff]
    constructor
    · intro h
      obtain ⟨hg, ho, hcase⟩ := h
      rcases hcase with ⟨ha, hb⟩ | ⟨ha, hb⟩ | heq
      · exact ⟨g.m_channelBase.val, by omega, by omega⟩
      · exact ⟨other.m_channelBase.val, by omega, by omega⟩
      · exact ⟨g.m_channelBase.val, by omega, by omega⟩
    · rintro ⟨i, hi1, hi2⟩
      omega
  · intro h1 h2 h3
    rw [ChannelGroup.clashesWith_eq_true_iff]
    rw [Fin.ext_iff] at h3
    omega

/-- Claim C1 witness: the theorem applied at concrete groups, discharging
each hypothesis. -/
theorem channelGroup_clashesWith_spec_witness :
    (ChannelGroup.mk 0 0).clashesWith (ChannelGroup.mk 0 2) = false ∧
    (ChannelGroup.mk 0 2).clashesWith (ChannelGroup.mk 1 2) = true ∧
    (ChannelGroup.mk 3 2).clashesWith (ChannelGroup.mk 3 5) = true :=
  ⟨(channelGroup_clashesWith_spec.1 _ _).1 (Or.inl (by decide)),
    ((channelGroup_clashesWith_spec.1 _ _).2.1 (by decide) (by decide)).mpr
      ⟨1, by decide, by decide⟩,
    (channelGroup_clashesWith_spec.1 _ _).2.2 (by decide) (by decide)
      (by decide)⟩

/-- Claim C8: the clash predicate is commutative. -/
theorem channelGroup_clashesWith_comm (a b : ChannelGroup) :
    a.clashesWith b = b.clashesWith a := by
  rw [Bool.eq_iff_iff, ChannelGroup.clashesWith_eq_true_iff,
    ChannelGroup.clashesWith_eq_true_iff]
  constructor <;> (intro h; omega)

/-- Claim C9: `ChannelGroup::getHash` is injective on the 8-bit state — two
groups hash equal exactly when `operator==` holds. -/
theorem channelGroup_getHash_inj (g other : ChannelGroup) :
    g.getHash = other.getHash ↔ g.opEq other = true := by
  rw [ChannelGroup.getHash_eq, ChannelGroup.getHash_eq]
  simp only [ChannelGroup.opEq, Bool.and_eq_true, decide_eq_true_iff,
    Fin.ext_iff]
  have h1 := g.m_channelBase.isLt
  have h2 := other.m_channelBase.isLt
  omega

/-- Claim C10: a group clashes with itself exactly when its count is
nonzero. -/
theorem channelGroup_clashesWith_self (g : ChannelGroup) :
    g.clashesWith g = true ↔ 0 < g.m_channels.val := by
  rw [ChannelGroup.clashesWith_eq_true_iff]
  omega

/-- Claim C2 (code bug): the source tests `isIndexed` on the raw `type`
argument instead of the coerced member, so an `AudioOutput` constructed
with the indexable but output-unsupported type `VINYLCONTROL` ends up with
`m_type == INVALID` — which is not indexable — yet keeps the caller's
nonzero index instead of resetting it to 0, contradicting
`AudioPath::getIndex`'s documented contract. -/
theorem audioOutput_coerced_invalid_keeps_index :
    (AudioOutput.make AudioPathType.VINYLCONTROL 0 2 5).m_type =
      AudioPathType.INVALID ∧
    AudioPath.isIndexed
      (AudioOutput.make AudioPathType.VINYLCONTROL 0 2 5).m_type = false ∧
    (AudioOutput.make AudioPathType.VINYLCONTROL 0 2 5).m_index = 5 := by
  decide

/-- Claim C4: any type outside a direction's supported set — in particular
`MICROPHONE` for an output and `MASTER` for an input — is silently coerced
to `INVALID` by construction; the constructors are total, so the object
always exists. -/
theorem audioPath_unsupported_type_invalid :
    (∀ channelBase channels index : Fin 256,
      (AudioOutput.make AudioPathType.MICROPHONE
          channelBase channels index).m_type = AudioPathType.INVALID) ∧
    (∀ (vinylcontrol : Bool) (channelBase channels index : Fin 256),
      (AudioInput.make vinylcontrol AudioPathType.MASTER
          channelBase channels index).m_type = AudioPathType.INVALID) ∧
    (∀ (type : AudioPathType) (channelBase channels index : Fin 256),
      type ∉ AudioOutput.getSupportedTypes →
        (AudioOutput.make type channelBase channels index).m_type =
          AudioPathType.INVALID) ∧
    (∀ (vinylcontrol : Bool) (type : AudioPathType)
        (channelBase channels index : Fin 256),
      type ∉ AudioInput.getSupportedTypes vinylcontrol →
        (AudioInput.make vinylcontrol type channelBase channels index).m_type =
          AudioPathType.INVALID) := by
  refine ⟨?_, ?_, ?_, ?_⟩
  · intro channelBase channels index
    show AudioOutput.setType AudioPathType.MICROPHONE = AudioPathType.INVALID
    decide
  · intro vinylcontrol channelBase channels index
    show AudioInput.setType vinylcontrol AudioPathType.MASTER =
      AudioPathType.INVALID
    cases vinylcontrol <;> decide
  · intro type channelBase channels index h
    show AudioOutput.setType type = AudioPathType.INVALID
    unfold AudioOutput.setType
    rw [if_neg h]
  · intro vinylcontrol type channelBase channels index h
    show AudioInput.setType vinylcontrol type = AudioPathType.INVALID
    unfold AudioInput.setType
    rw [if_neg h]

/-- Claim C4 witness: the theorem applied at concrete routes. -/
theorem audioPath_unsupported_type_invalid_witness :
    (AudioOutput.make AudioPathType.MICROPHONE 0 1 3).m_type =
      AudioPathType.INVALID ∧
    (AudioInput.make true AudioPathType.MASTER 0 2 0).m_type =
      AudioPathType.INVALID ∧
    (AudioOutput.make AudioPathType.AUXILLIARY 0 2 1).m_type =
      AudioPathType.INVALID ∧
    (AudioInput.make false AudioPathType.VINYLCONTROL 0 2 1).m_type =
      AudioPathType.INVALID :=
  ⟨audioPath_unsupported_type_invalid.1 0 1 3,
    audioPath_unsupported_type_invalid.2.1 true 0 2 0,
    audioPath_unsupported_type_invalid.2.2.1 AudioPathType.AUXILLIARY 0 2 1
      (by decide),
    audioPath_unsupported_type_invalid.2.2.2 false AudioPathType.VINYLCONTROL
      0 2 1 (by decide)⟩

/-- Claim C7: routes with equal `(m_type, m_index)` are equal under
`operator==` and hash equal, independently of their channel groups; routes
differing in type or index compare unequal. -/
theorem audioPath_opEq_getHash_spec :
    ∀ path other : AudioPath,
      ((path.m_type = other.m_type ∧ path.m_index = other.m_index) →
        path.opEq other = true ∧ path.getHash = other.getHash) ∧
      ((path.m_type ≠ other.m_type ∨ path.m_index ≠ other.m_index) →
        path.opEq other = false) := by
  intro path other
  constructor
  · rintro ⟨h1, h2⟩
    refine ⟨?_, ?_⟩
    · simp [AudioPath.opEq, h1, h2]
    · simp [AudioPath.getHash, h1, h2]
  · intro h
    rcases hb : path.opEq other with _ | _
    · rfl
    · exfalso
      simp only [AudioPath.opEq, Bool.and_eq_true, decide_eq_true_iff] at hb
      tauto

/-- Claim C7 witness: two `DECK 1` routes on different channel ranges are
equal and hash equal; changing the index breaks equality. -/
theorem audioPath_opEq_getHash_spec_witness :
    (AudioPath.mk AudioPathType.DECK 1 (ChannelGroup.mk 0 2)).opEq
        (AudioPath.mk AudioPathType.DECK 1 (ChannelGroup.mk 4 2)) = true ∧
    (AudioPath.mk AudioPathType.DECK 1 (ChannelGroup.mk 0 2)).getHash =
      (AudioPath.mk AudioPathType.DECK 1 (ChannelGroup.mk 4 2)).getHash ∧
    (AudioPath.mk AudioPathType.DECK 1 (ChannelGroup.mk 0 2)).opEq
        (AudioPath.mk AudioPathType.DECK 2 (ChannelGroup.mk 0 2)) = false :=
  ⟨((audioPath_opEq_getHash_spec _ _).1 ⟨rfl, rfl⟩).1,
    ((audioPath_opEq_getHash_spec _ _).1 ⟨rfl, rfl⟩).2,
    (audioPath_opEq_getHash_spec _ _).2 (Or.inr (by decide))⟩

/-- Claim C5: parsing the lowercased canonical display name returns the
variant for every non-`INVALID` type, and every string matching no
variant's canonical display name case-insensitively parses to `INVALID`. -/
theorem getTypeFromString_display_roundtrip :
    (∀ type : AudioPathType, type ≠ AudioPathType.INVALID →
      AudioPath.getTypeFromString
        (qtToLower (AudioPath.getStringFromType type)) = type) ∧
    (∀ s : String,
      (∀ type : AudioPathType,
        ¬ qtToLower s = qtToLower (AudioPath.getStringFromType type)) →
      AudioPath.getTypeFromString s = AudioPathType.INVALID) := by
  constructor
  · intro type _
    cases type <;> decide
  · intro s h
    unfold AudioPath.getTypeFromString
    rw [if_neg (h AudioPathType.MASTER), if_neg (h AudioPathType.HEADPHONES),
      if_neg (h AudioPathType.BUS), if_neg (h AudioPathType.DECK),
      if_neg (h AudioPathType.VINYLCONTROL),
      if_neg (h AudioPathType.MICROPHONE),
      if_neg (h AudioPathType.AUXILLIARY)]

/-- Claim C5 witness: the round trip at `BUS`, and a non-matching string. -/
theorem getTypeFromString_display_roundtrip_witness :
    AudioPath.getTypeFromString
        (qtToLower (AudioPath.getStringFromType AudioPathType.BUS)) =
      AudioPathType.BUS ∧
    AudioPath.getTypeFromString "garbage" = AudioPathType.INVALID :=
  ⟨getTypeFromString_display_roundtrip.1 AudioPathType.BUS (by decide),
    getTypeFromString_display_roundtrip.2 "garbage" (by decide)⟩

/-- Claim C6 counterexample: with §3's stated ordering (`INVALID = 0`,
`BUS = 3`), `getTypeFromInt` at the ordinal of `BUS` does not yield `BUS`,
and at the ordinal of `INVALID` does not yield `INVALID` — the source's
range check `typeInt >= INVALID` forces `INVALID` to be the last variant,
not the zero value. -/
theorem getTypeFromInt_spec_ordinal_refuted :
    AudioPath.getTypeFromInt (AudioPathType.ordinalSpec AudioPathType.BUS) ≠
      AudioPathType.BUS ∧
    AudioPath.getTypeFromInt
        (AudioPathType.ordinalSpec AudioPathType.INVALID) ≠
      AudioPathType.INVALID := by
  decide

/-- Claim C6 (amended): with the ordering the source forces
(`MASTER = 0`, …, `AUXILLIARY = 6`, `INVALID = 7` as the upper-bound
sentinel), `getTypeFromInt` returns `INVALID` for every argument that is
negative or at least `INVALID`'s ordinal and the variant at that ordinal
otherwise; in particular `-1` and `INVALID`'s ordinal give `INVALID` and
`BUS`'s ordinal gives `BUS`. -/
theorem getTypeFromInt_range_spec :
    (∀ n : Int,
      (n < 0 ∨ n ≥ (AudioPathType.INVALID.val : Int)) →
        AudioPath.getTypeFromInt n = AudioPathType.INVALID) ∧
    (∀ n : Int, 0 ≤ n → n < (AudioPathType.INVALID.val : Int) →
      ((AudioPath.getTypeFromInt n).val : Int) = n) ∧
    AudioPath.getTypeFromInt (-1) = AudioPathType.INVALID ∧
    AudioPath.getTypeFromInt (AudioPathType.INVALID.val : Int) =
      AudioPathType.INVALID ∧
    AudioPath.getTypeFromInt (AudioPathType.BUS.val : Int) =
      AudioPathType.BUS := by
  refine ⟨?_, ?_, by decide, by decide, by decide⟩
  · intro n h
    unfold AudioPath.getTypeFromInt
    rw [if_pos h]
  · intro n h1 h2
    have h7 : (AudioPathType.INVALID.val : Int) = 7 := by decide
    have hn : n = 0 ∨ n = 1 ∨ n = 2 ∨ n = 3 ∨ n = 4 ∨ n = 5 ∨ n = 6 := by
      omega
    rcases hn with rfl | rfl | rfl | rfl | rfl | rfl | rfl <;> decide

/-- Claim C6 witness: the amended theorem applied at concrete ordinals. -/
theorem getTypeFromInt_range_spec_witness :
    AudioPath.getTypeFromInt (-5) = AudioPathType.INVALID ∧
    ((AudioPath.getTypeFromInt 2).val : Int) = 2 :=
  ⟨getTypeFromInt_range_spec.1 (-5) (by decide),
    getTypeFromInt_range_spec.2.1 2 (by decide) (by decide)⟩

/-- Truncation to `unsigned char` is the identity on 8-bit values. -/
theorem toUChar_val (x : Fin 256) : toUChar x.val = x := by
  apply Fin.ext
  simp [toUChar, Nat.mod_eq_of_lt x.isLt]

theorem toUChar_one : toUChar 1 = 1 := rfl

theorem toUChar_two : toUChar 2 = 2 := rfl

theorem getTypeFromString_master :
    AudioPath.getTypeFromString "Master" = AudioPathType.MASTER := by decide

theorem getTypeFromString_headphones :
    AudioPath.getTypeFromString "Headphones" = AudioPathType.HEADPHONES := by
  decide

theorem getTypeFromString_bus :
    AudioPath.getTypeFromString "Bus" = AudioPathType.BUS := by decide

theorem getTypeFromString_deck :
    AudioPath.getTypeFromString "Deck" = AudioPathType.DECK := by decide

theorem getTypeFromString_vinylcontrol :
    AudioPath.getTypeFromString "Vinyl Control" =
      AudioPathType.VINYLCONTROL := by decide

theorem getTypeFromString_microphone :
    AudioPath.getTypeFromString "Microphone" = AudioPathType.MICROPHONE := by
  decide

theorem getTypeFromString_auxilliary :
    AudioPath.getTypeFromString "Auxilliary" = AudioPathType.AUXILLIARY := by
  decide

/-- Claim C3: serializing a validly constructed route with `toXML` and
re-reading it with `fromXML` reproduces the same `(routeType, index,
channels)`, except that a serialized `channel_count` of 0 comes back as
1 for `MICROPHONE` and 2 for every other type. -/
theorem audioPath_xml_roundtrip :
    (∀ (type : AudioPathType) (channelBase channels index : Fin 256),
      type ∈ AudioOutput.getSupportedTypes →
        AudioOutput.fromXML (AudioOutput.toXML
            (AudioOutput.make type channelBase channels index)) =
          AudioOutput.make type channelBase
            (if channels.val = 0 then
              (if type = AudioPathType.MICROPHONE then 1 else 2)
            else channels) index) ∧
    (∀ (vinylcontrol : Bool) (type : AudioPathType)
        (channelBase channels index : Fin 256),
      type ∈ AudioInput.getSupportedTypes vinylcontrol →
        AudioInput.fromXML vinylcontrol (AudioInput.toXML
            (AudioInput.make vinylcontrol type channelBase channels index)) =
          AudioInput.make vinylcontrol type channelBase
            (if channels.val = 0 then
              (if type = AudioPathType.MICROPHONE then 1 else 2)
            else channels) index) := by
  constructor
  · intro type channelBase channels index htype
    have ht : type = AudioPathType.MASTER ∨ type = AudioPathType.HEADPHONES ∨
        type = AudioPathType.BUS ∨ type = AudioPathType.DECK := by
      simpa [AudioOutput.getSupportedTypes] using htype
    rcases ht with rfl | rfl | rfl | rfl <;>
      by_cases hc : channels.val = 0 <;>
        simp [AudioOutput.fromXML, AudioOutput.toXML, AudioOutput.make,
          AudioOutput.setType, AudioOutput.getSupportedTypes,
          AudioPath.isIndexed, AudioPath.getStringFromType,
          ChannelGroup.getChannelBase, ChannelGroup.getChannelCount,
          getTypeFromString_master, getTypeFromString_headphones,
          getTypeFromString_bus, getTypeFromString_deck, hc,
          toUChar_val, toUChar_one, toUChar_two]
  · intro vinylcontrol type channelBase channels index htype
    cases vinylcontrol
    · have ht : type = AudioPathType.AUXILLIARY ∨
          type = AudioPathType.MICROPHONE := by
        simpa [AudioInput.getSupportedTypes] using htype
      rcases ht with rfl | rfl <;>
        by_cases hc : channels.val = 0 <;>
          simp [AudioInput.fromXML, AudioInput.toXML, AudioInput.make,
            AudioInput.setType, AudioInput.getSupportedTypes,
            AudioPath.isIndexed, AudioPath.getStringFromType,
            ChannelGroup.getChannelBase, ChannelGroup.getChannelCount,
            getTypeFromString_auxilliary, getTypeFromString_microphone, hc,
            toUChar_val, toUChar_one, toUChar_two]
    · have ht : type = AudioPathType.VINYLCONTROL ∨
          type = AudioPathType.AUXILLIARY ∨
          type = AudioPathType.MICROPHONE := by
        simpa [AudioInput.getSupportedTypes] using htype
      rcases ht with rfl | rfl | rfl <;>
        by_cases hc : channels.val = 0 <;>
          simp [AudioInput.fromXML, AudioInput.toXML, AudioInput.make,
            AudioInput.setType, AudioInput.getSupportedTypes,
            AudioPath.isIndexed, AudioPath.getStringFromType,
            getTypeFromString_vinylcontrol, getTypeFromString_auxilliary,
            ChannelGroup.getChannelBase, ChannelGroup.getChannelCount,
            getTypeFromString_microphone, hc,
            toUChar_val, toUChar_one, toUChar_two]

/-- Claim C3 witness: the round trip applied to concrete output and input
routes, one with a nonzero count and one exercising the legacy
`channel_count == 0` migration. -/
theorem audioPath_xml_roundtrip_witness :
    AudioOutput.fromXML (AudioOutput.toXML
        (AudioOutput.make AudioPathType.DECK 4 2 1)) =
      AudioOutput.make AudioPathType.DECK 4
        (if (2 : Fin 256).val = 0 then
          (if AudioPathType.DECK = AudioPathType.MICROPHONE then 1 else 2)
        else 2) 1 ∧
    AudioInput.fromXML false (AudioInput.toXML
        (AudioInput.make false AudioPathType.MICROPHONE 0 0 0)) =
      AudioInput.make false AudioPathType.MICROPHONE 0
        (if (0 : Fin 256).val = 0 then
          (if AudioPathType.MICROPHONE = AudioPathType.MICROPHONE then 1
          else 2)
        else 0) 0 :=
  ⟨audioPath_xml_roundtrip.1 AudioPathType.DECK 4 2 1 (by decide),
    audioPath_xml_roundtrip.2 false AudioPathType.MICROPHONE 0 0 0
      (by decide)⟩
